/-
Verification of the GUI shaping layer of the object-detection-metrics
application (`src/ui/run_ui.py`).

The file shallowly embeds the pieces of `run_ui.py` that the verified
properties are about:

* Python dicts are modelled as association lists `List (String × α)` with
  unique keys; `del d[k]` is `dictDel`, which returns `Except.error k`
  (the `KeyError`) when the key is missing.
* The dialog's user-editable widget state and its six cached path
  attributes form the structure `DialogState`.
* `btn_run_clicked` is modelled as a pure function of the dialog state and
  an environment `RunEnv` holding the external collaborators (the
  filesystem test `os.path.isdir`, the annotation loaders' results, and
  the two evaluator entry points `get_coco_summary` /
  `get_pascalvoc_metrics`, which live outside the embedded source).
  Its result records the popup/result outcome, whether each evaluator was
  invoked, and the `mAP` value handed to the precision-recall plotting
  call.
* The in-place re-tagging done by `load_annotations_gt`
  (`bb.set_bb_type(...)` on every converted box) is modelled with an
  explicit object store: a list of `BoundingBox` records indexed by
  position, where `set_bb_type` mutates one cell of the store.
-/
import Mathlib

namespace RunUI

/-! ## Association-list model of Python dicts -/

/-- The keys of an association list, in order.  Models `dict.keys()`. -/
def keysOf (d : List (String × α)) : List String := d.map Prod.fst

/-- Models `k in d` for a Python dict. -/
def dictContains (d : List (String × α)) (k : String) : Bool :=
  d.any (fun e => e.1 == k)

/-- Models `d[k]` where absence is observable as `none`. -/
def dictGet? (d : List (String × α)) (k : String) : Option α :=
  (d.find? (fun e => e.1 == k)).map Prod.snd

/-- Models `d[k]`, raising `KeyError` (the `.error` case) when absent. -/
def dictGetE (d : List (String × α)) (k : String) : Except String α :=
  match d.find? (fun e => e.1 == k) with
  | some e => .ok e.2
  | none => .error k

/-- Models `del d[k]`: removes the entry for `k`, raising `KeyError`
(the `.error` case) when `k` is not a key of `d`. -/
def dictDel (d : List (String × α)) (k : String) : Except String (List (String × α)) :=
  if dictContains d k then .ok (d.eraseP (fun e => e.1 == k)) else .error k

@[simp] theorem keysOf_nil : keysOf ([] : List (String × α)) = [] := rfl

@[simp] theorem keysOf_cons (e : String × α) (d : List (String × α)) :
    keysOf (e :: d) = e.1 :: keysOf d := rfl

theorem dictContains_iff (d : List (String × α)) (k : String) :
    dictContains d k = true ↔ k ∈ keysOf d := by
  simp [dictContains, keysOf, List.any_eq_true, List.mem_map]

theorem mem_keysOf_iff (d : List (String × α)) (k : String) :
    k ∈ keysOf d ↔ ∃ v, (k, v) ∈ d := by
  simp only [keysOf, List.mem_map]
  constructor
  · rintro ⟨⟨k', v⟩, he, hk⟩
    simp only at hk
    subst hk
    exact ⟨v, he⟩
  · rintro ⟨v, hv⟩; exact ⟨(k, v), hv, rfl⟩

@[simp] theorem dictGet?_nil (k : String) : dictGet? ([] : List (String × α)) k = none := rfl

theorem dictGet?_cons (e : String × α) (d : List (String × α)) (k : String) :
    dictGet? (e :: d) k = if e.1 == k then some e.2 else dictGet? d k := by
  by_cases h : e.1 == k <;> simp [dictGet?, List.find?_cons, h]

/-- With unique keys, `del d[k]` removes exactly the entry for `k`,
keeping everything else in order. -/
theorem eraseP_eq_filter_keys (d : List (String × α)) (k : String)
    (h : (keysOf d).Nodup) :
    d.eraseP (fun e => e.1 == k) = d.filter (fun e => !(e.1 == k)) := by
  induction d with
  | nil => rfl
  | cons e rest ih =>
    simp only [keysOf_cons, List.nodup_cons] at h
    by_cases hek : e.1 = k
    · rw [List.eraseP_cons_of_pos (by simp [hek]), List.filter_cons_of_neg (by simp [hek])]
      symm
      apply List.filter_eq_self.mpr
      intro a ha
      simp only [Bool.not_eq_true', beq_eq_false_iff_ne, ne_eq]
      intro hak
      exact h.1 (by simpa [keysOf, hak, hek] using List.mem_map_of_mem Prod.fst ha)
    · rw [List.eraseP_cons_of_neg (by simp [hek]), List.filter_cons_of_pos (by simp [hek])]
      rw [ih h.2]

/-! ## Conditional key-deletion chains

`btn_run_clicked` (run_ui.py lines 721-745) deletes from the COCO summary
the key of every unchecked metric with twelve sequential
`if not checkbox: del coco_res[key]` statements.  `delChain` runs such a
sequence, threading the `KeyError` possibility through `Except`. -/

/-- One `if not flag: del d[key]` step (`flag` is the checkbox state). -/
def condDel (flag : Bool) (k : String) (d : List (String × α)) :
    Except String (List (String × α)) :=
  if flag then .ok d else dictDel d k

/-- Run a sequence of `if not flag: del d[key]` steps in order. -/
def delChain : List (Bool × String) → List (String × α) →
    Except String (List (String × α))
  | [], d => .ok d
  | f :: rest, d =>
    match condDel f.1 f.2 d with
    | .error e => .error e
    | .ok d' => delChain rest d'

/-- A deletion chain over distinct keys that are all present succeeds, and
returns the entries whose key is not scheduled for deletion, in order. -/
theorem delChain_ok (fs : List (Bool × String)) (d : List (String × α))
    (hnd : (keysOf d).Nodup)
    (hfs : (fs.map Prod.snd).Nodup)
    (hpres : ∀ p ∈ fs, p.1 = false → p.2 ∈ keysOf d) :
    delChain fs d =
      .ok (d.filter (fun e => !(fs.any (fun p => !p.1 && e.1 == p.2)))) := by
  induction fs generalizing d with
  | nil =>
    simp only [delChain, List.any_nil, Bool.not_false, List.filter_true]
  | cons f rest ih =>
    obtain ⟨b, k⟩ := f
    cases b with
    | true =>
      have hstep : condDel true k d = .ok d := rfl
      simp only [delChain, hstep]
      rw [ih d hnd (by simpa using hfs.of_cons)
        (fun p hp hf => hpres p (List.mem_cons_of_mem _ hp) hf)]
      have hpred : ∀ e ∈ d, (!(rest.any (fun p => !p.1 && e.1 == p.2)))
          = (!(((true, k) :: rest).any (fun p => !p.1 && e.1 == p.2))) := by
        intro e _
        simp [List.any_cons]
      rw [List.filter_congr hpred]
    | false =>
      have hk : k ∈ keysOf d := hpres (false, k) (List.mem_cons_self _ _) rfl
      have hstep : condDel false k d = .ok (d.filter (fun e => !(e.1 == k))) := by
        unfold condDel dictDel
        rw [if_neg (by simp), if_pos ((dictContains_iff d k).mpr hk),
          eraseP_eq_filter_keys d k hnd]
      simp only [delChain, hstep]
      have hsub : List.Sublist (keysOf (d.filter (fun e => !(e.1 == k)))) (keysOf d) :=
        List.Sublist.map Prod.fst (List.filter_sublist d)
      have hnd' : (keysOf (d.filter (fun e => !(e.1 == k)))).Nodup :=
        hnd.sublist hsub
      have hknr : k ∉ rest.map Prod.snd := by
        have hmap : ((false, k) :: rest).map Prod.snd = k :: rest.map Prod.snd := rfl
        exact (List.nodup_cons.mp (hmap ▸ hfs)).1
      have hpres' : ∀ p ∈ rest, p.1 = false →
          p.2 ∈ keysOf (d.filter (fun e => !(e.1 == k))) := by
        intro p hp hf
        have hpk : p.2 ∈ keysOf d := hpres p (List.mem_cons_of_mem _ hp) hf
        have hpne : p.2 ≠ k := by
          intro hpe
          exact hknr (hpe ▸ List.mem_map_of_mem Prod.snd hp)
        obtain ⟨v, hv⟩ := (mem_keysOf_iff d p.2).mp hpk
        apply (mem_keysOf_iff _ p.2).mpr
        exact ⟨v, List.mem_filter.mpr ⟨hv, by simpa using hpne⟩⟩
      rw [ih _ hnd' (by simpa using hfs.of_cons) hpres']
      rw [List.filter_filter]
      have hpred : ∀ e ∈ d,
          ((!(rest.any (fun p => !p.1 && e.1 == p.2))) && !(e.1 == k))
          = (!(((false, k) :: rest).any (fun p => !p.1 && e.1 == p.2))) := by
        intro e _
        simp only [List.any_cons, Bool.not_true, Bool.false_and, Bool.not_false,
          Bool.true_and, Bool.not_or]
        rw [Bool.and_comm]
      rw [List.filter_congr hpred]

/-- Looking up a surviving key of a filtered dict with unique keys gives the
original value. -/
theorem dictGet?_filter (d : List (String × α)) (q : String × α → Bool)
    (hnd : (keysOf d).Nodup) (k : String)
    (hk : k ∈ keysOf (d.filter q)) :
    dictGet? (d.filter q) k = dictGet? d k := by
  induction d with
  | nil => simp at hk
  | cons e rest ih =>
    simp only [keysOf_cons, List.nodup_cons] at hnd
    by_cases hek : e.1 = k
    · by_cases hq : q e = true
      · rw [List.filter_cons_of_pos hq, dictGet?_cons, dictGet?_cons, if_pos (by simp [hek]),
          if_pos (by simp [hek])]
      · exfalso
        rw [List.filter_cons_of_neg (by simpa using hq)] at hk
        have : k ∈ keysOf rest := by
          have hsub : List.Sublist (keysOf (rest.filter q)) (keysOf rest) :=
            List.Sublist.map Prod.fst (List.filter_sublist rest)
          exact hsub.mem hk
        exact hnd.1 (hek ▸ this)
    · by_cases hq : q e = true
      · rw [List.filter_cons_of_pos hq] at hk ⊢
        rw [dictGet?_cons, dictGet?_cons, if_neg (by simp [hek]), if_neg (by simp [hek])]
        apply ih hnd.2
        rcases (by simpa using hk : k = e.1 ∨ k ∈ keysOf (rest.filter q)) with h | h
        · exact absurd h.symm hek
        · exact h
      · rw [List.filter_cons_of_neg (by simpa using hq)] at hk ⊢
        rw [dictGet?_cons, if_neg (by simp [hek])]
        exact ih hnd.2 hk

/-- Membership in the keys of a filtered dict, when the filter only looks
at the key. -/
theorem mem_keysOf_filter (d : List (String × α)) (q : String → Bool) (k : String) :
    k ∈ keysOf (d.filter (fun e => q e.1)) ↔ k ∈ keysOf d ∧ q k = true := by
  rw [mem_keysOf_iff, mem_keysOf_iff d k]
  constructor
  · rintro ⟨v, hv⟩
    obtain ⟨hvd, hq⟩ := List.mem_filter.mp hv
    exact ⟨⟨v, hvd⟩, hq⟩
  · rintro ⟨⟨v, hv⟩, hq⟩
    exact ⟨v, List.mem_filter.mpr ⟨hv, hq⟩⟩

/-! ## Bounding boxes and the ground-truth loader's in-place re-tagging

`BoundingBox` itself lives in the converter/evaluator layer outside the
embedded source, so its record shape is modelled from the spec (§3): an
image identifier, a class label, a kind tag, an optional confidence and
absolute pixel coordinates.  `load_annotations_gt` (run_ui.py lines
451-475) runs the selected converter and then executes
`[bb.set_bb_type(BBType.GROUND_TRUTH) for bb in ret]`, calling the
mutating setter on every box it received.  Object identity is made
explicit with a store: boxes live in a `List BoundingBox` indexed by
position, converters return indices into the store, and `set_bb_type`
overwrites one cell. -/

/-- The `BBType` enumeration from `src.utils.enumerators`. -/
inductive BBType
  | GROUND_TRUTH
  | DETECTED
deriving DecidableEq, Inhabited

/-- Modelled from the spec: the `BoundingBox` entity of §3
(`src/bounding_box.py` is not under the embedded sources). -/
structure BoundingBox where
  image_name : String
  class_id : String
  bb_type : BBType
  confidence : Option ℚ
  x : ℚ
  y : ℚ
  x2 : ℚ
  y2 : ℚ
deriving DecidableEq, Inhabited

/-- Replace the element at index `n` (out-of-range indices are untouched). -/
def modifyAt : List α → Nat → (α → α) → List α
  | [], _, _ => []
  | a :: as, 0, f => f a :: as
  | a :: as, n + 1, f => a :: modifyAt as n f

/-- The mutating `bb.set_bb_type(t)` call, acting on the store cell `r`. -/
def set_bb_type (store : List BoundingBox) (r : Nat) (t : BBType) :
    List BoundingBox :=
  modifyAt store r (fun bb => { bb with bb_type := t })

/-- What `set_bb_type(BBType.GROUND_TRUTH)` does to one box. -/
def retagGT (bb : BoundingBox) : BoundingBox := { bb with bb_type := BBType.GROUND_TRUTH }

theorem modifyAt_get? (l : List α) (n : Nat) (f : α → α) (m : Nat) :
    (modifyAt l n f).get? m = if m = n then (l.get? m).map f else l.get? m := by
  induction l generalizing n m with
  | nil => simp [modifyAt]
  | cons a as ih =>
    cases n with
    | zero =>
      cases m with
      | zero => simp [modifyAt]
      | succ m => simp [modifyAt]
    | succ n =>
      cases m with
      | zero => simp [modifyAt]
      | succ m => simpa [modifyAt, Nat.succ_inj] using ih n m

/-- The annotation formats selectable in the ground-truth radio group. -/
inductive GtFormat
  | coco_json
  | cvat_xml
  | openimages_csv
  | labelme_xml
  | pascalvoc_xml
  | imagenet_xml
  | abs_values_text
  | yolo_text
deriving DecidableEq

/-! ## The dialog state and `btn_clear_all_clicked` -/

/-- The user-editable widgets of the main dialog together with the six
internally cached path attributes: everything `btn_clear_all_clicked`
resets and everything the run/loader slots read. -/
structure DialogState where
  txb_gt_dir : String
  txb_gt_images_dir : String
  txb_classes_gt : String
  txb_det_dir : String
  txb_classes_det : String
  txb_output_dir : String
  rad_gt_format_coco_json : Bool
  rad_gt_format_pascalvoc_xml : Bool
  rad_gt_format_labelme_xml : Bool
  rad_gt_format_openimages_csv : Bool
  rad_gt_format_imagenet_xml : Bool
  rad_gt_format_yolo_text : Bool
  rad_gt_format_abs_values_text : Bool
  rad_gt_format_cvat_xml : Bool
  rad_det_ci_format_text_yolo_rel : Bool
  rad_det_ci_format_text_xyx2y2_abs : Bool
  rad_det_ci_format_text_xywh_abs : Bool
  rad_det_format_coco_json : Bool
  rad_det_cn_format_text_yolo_rel : Bool
  rad_det_cn_format_text_xyx2y2_abs : Bool
  rad_det_cn_format_text_xywh_abs : Bool
  chb_metric_AP_coco : Bool
  chb_metric_AP50_coco : Bool
  chb_metric_AP75_coco : Bool
  chb_metric_APsmall_coco : Bool
  chb_metric_APmedium_coco : Bool
  chb_metric_APlarge_coco : Bool
  chb_metric_AR_max1 : Bool
  chb_metric_AR_max10 : Bool
  chb_metric_AR_max100 : Bool
  chb_metric_AR_small : Bool
  chb_metric_AR_medium : Bool
  chb_metric_AR_large : Bool
  chb_metric_AP_pascal : Bool
  chb_metric_mAP_pascal : Bool
  dsb_IOU_pascal : ℚ
  dir_annotations_gt : Option String
  dir_images_gt : Option String
  filepath_classes_gt : Option String
  dir_dets : Option String
  filepath_classes_det : Option String
  dir_save_results : Option String
deriving DecidableEq, Inhabited

/-- Default value for the Pascal VOC IOU-threshold spin box
(run_ui.py line 76). -/
def DEFAULT_IOU_THRESHOLD : ℚ := 0.5

/-- The **Clear All** slot (run_ui.py lines 319-421): clears the six text
boxes, restores the default radio-button of each format group, checks all
fourteen metric check boxes, restores the IOU spin box to
`DEFAULT_IOU_THRESHOLD` and clears the six cached path attributes. -/
def btn_clear_all_clicked (_s : DialogState) : DialogState :=
  { txb_gt_dir := ""
    txb_gt_images_dir := ""
    txb_classes_gt := ""
    txb_det_dir := ""
    txb_classes_det := ""
    txb_output_dir := ""
    rad_gt_format_coco_json := true
    rad_gt_format_pascalvoc_xml := false
    rad_gt_format_labelme_xml := false
    rad_gt_format_openimages_csv := false
    rad_gt_format_imagenet_xml := false
    rad_gt_format_yolo_text := false
    rad_gt_format_abs_values_text := false
    rad_gt_format_cvat_xml := false
    rad_det_ci_format_text_yolo_rel := true
    rad_det_ci_format_text_xyx2y2_abs := false
    rad_det_ci_format_text_xywh_abs := false
    rad_det_format_coco_json := false
    rad_det_cn_format_text_yolo_rel := false
    rad_det_cn_format_text_xyx2y2_abs := false
    rad_det_cn_format_text_xywh_abs := false
    chb_metric_AP_coco := true
    chb_metric_AP50_coco := true
    chb_metric_AP75_coco := true
    chb_metric_APsmall_coco := true
    chb_metric_APmedium_coco := true
    chb_metric_APlarge_coco := true
    chb_metric_AR_max1 := true
    chb_metric_AR_max10 := true
    chb_metric_AR_max100 := true
    chb_metric_AR_small := true
    chb_metric_AR_medium := true
    chb_metric_AR_large := true
    chb_metric_AP_pascal := true
    chb_metric_mAP_pascal := true
    dsb_IOU_pascal := DEFAULT_IOU_THRESHOLD
    dir_annotations_gt := none
    dir_images_gt := none
    filepath_classes_gt := none
    dir_dets := none
    filepath_classes_det := none
    dir_save_results := none }

/-! ## `load_annotations_gt` -/

/-- The `if/elif` chain of `load_annotations_gt` (run_ui.py lines 453-472),
in source order; `none` when no ground-truth format button is checked. -/
def selectedGtFormat (s : DialogState) : Option GtFormat :=
  if s.rad_gt_format_coco_json then some .coco_json
  else if s.rad_gt_format_cvat_xml then some .cvat_xml
  else if s.rad_gt_format_openimages_csv then some .openimages_csv
  else if s.rad_gt_format_labelme_xml then some .labelme_xml
  else if s.rad_gt_format_pascalvoc_xml then some .pascalvoc_xml
  else if s.rad_gt_format_imagenet_xml then some .imagenet_xml
  else if s.rad_gt_format_abs_values_text then some .abs_values_text
  else if s.rad_gt_format_yolo_text then some .yolo_text
  else none

/-- True when none of the eight ground-truth format radio buttons is
checked. -/
def noGtFormatChecked (s : DialogState) : Bool :=
  !(s.rad_gt_format_coco_json || s.rad_gt_format_cvat_xml ||
    s.rad_gt_format_openimages_csv || s.rad_gt_format_labelme_xml ||
    s.rad_gt_format_pascalvoc_xml || s.rad_gt_format_imagenet_xml ||
    s.rad_gt_format_abs_values_text || s.rad_gt_format_yolo_text)

/-- `load_annotations_gt` (run_ui.py lines 451-475).  `conv f` is the list
of store indices returned by the converter for format `f` (the converters
are external collaborators).  The function returns the converter's list
unchanged and the store after
`[bb.set_bb_type(BBType.GROUND_TRUTH) for bb in ret]`. -/
def load_annotations_gt (conv : GtFormat → List Nat) (s : DialogState)
    (store : List BoundingBox) : List Nat × List BoundingBox :=
  let ret := match selectedGtFormat s with
    | some f => conv f
    | none => []
  (ret, ret.foldl (fun st r => set_bb_type st r BBType.GROUND_TRUTH) store)

/-- Effect of the re-tagging loop on every store cell: cells referenced by
the list are overwritten with their `GROUND_TRUTH`-tagged copy, all other
cells are untouched. -/
theorem foldl_set_bb_type_get? (l : List Nat) (store : List BoundingBox) (r : Nat) :
    ((l.foldl (fun st i => set_bb_type st i BBType.GROUND_TRUTH) store).get? r)
      = if r ∈ l then (store.get? r).map retagGT else store.get? r := by
  induction l generalizing store with
  | nil => simp
  | cons a rest ih =>
    rw [List.foldl_cons, ih]
    have hset : ∀ m, (set_bb_type store a BBType.GROUND_TRUTH).get? m
        = if m = a then (store.get? m).map retagGT else store.get? m := by
      intro m
      exact modifyAt_get? store a _ m
    by_cases hra : r = a
    · by_cases hrl : r ∈ rest
      · rw [if_pos hrl, hset r, if_pos hra, if_pos (by simp [hra])]
        cases store.get? r <;> simp [retagGT]
      · rw [if_neg hrl, hset r, if_pos hra, if_pos (by simp [hra])]
    · by_cases hrl : r ∈ rest
      · rw [if_pos hrl, hset r, if_neg hra, if_pos (by simp [hrl])]
      · rw [if_neg hrl, hset r, if_neg hra, if_neg (by simp [hra, hrl])]

/-! ## `btn_run_clicked`

The run slot (run_ui.py lines 682-778).  The evaluator entry points
`get_coco_summary` and `get_pascalvoc_metrics`, the converters behind
`load_annotations_det` / `load_annotations_gt`, and `os.path.isdir` are
external to the embedded source; they enter the model as the fields of a
`RunEnv`.  The spec's output contracts for the two evaluators (§6: a flat
12-key COCO mapping; a Pascal mapping with keys `mAP` and `per_class`)
become the predicates `cocoSpecOk` and `pascalSpecOk` below. -/

/-- A value of the Pascal result dict: the `mAP` float or the nested
`per_class` table (whose inner structure the run slot never inspects;
it is carried opaquely as an association list of per-class APs). -/
inductive PEntry
  | vMAP : ℚ → PEntry
  | vPerClass : List (String × ℚ) → PEntry
deriving DecidableEq

/-- External collaborators of `btn_run_clicked`: the filesystem check for
the output directory, the already-loaded annotation lists (the two loader
methods' results), and the two evaluator entry points. -/
structure RunEnv where
  isdir : String → Bool
  load_det : List BoundingBox × Bool
  load_gt : List BoundingBox
  get_coco_summary : List BoundingBox → List BoundingBox → List (String × ℚ)
  get_pascalvoc_metrics : List BoundingBox → List BoundingBox → ℚ → List (String × PEntry)

/-- How one invocation of the run slot ends: one of the four early-return
popups, the final `No results` popup, or the results dialog opened on the
two (possibly pruned) metric dicts. -/
inductive RunOutcome
  | invalidOutputDir
  | detLoadFailed
  | emptyDetections
  | emptyGroundTruth
  | noResults
  | results : List (String × ℚ) → List (String × PEntry) → RunOutcome
deriving DecidableEq

/-- Observable effects of one invocation of the run slot: the dialog state
afterwards, the outcome, whether each evaluator entry point was invoked,
and the `mAP` dict entry handed to `plot_precision_recall_curve` (read
*before* the Pascal deletions), `none` when no plot was generated. -/
structure RunResult where
  state : DialogState
  outcome : RunOutcome
  called_coco : Bool
  called_pascal : Bool
  plotted : Option PEntry
deriving DecidableEq

/-- `self.dir_save_results is None or os.path.isdir(...) is False`,
negated (run_ui.py line 683). -/
def outdirValid (env : RunEnv) (s : DialogState) : Bool :=
  match s.dir_save_results with
  | none => false
  | some d => env.isdir d

/-- The 12 keys of the COCO summary, in the order the deletion chain of
`btn_run_clicked` visits them (and the order of §4.4 of the spec). -/
def cocoKeys : List String :=
  ["AP", "AP50", "AP75", "APsmall", "APmedium", "APlarge",
   "AR1", "AR10", "AR100", "ARsmall", "ARmedium", "ARlarge"]

/-- The COCO metric check boxes paired with the summary key each one
guards, in the order of the deletion chain (run_ui.py lines 722-745). -/
def cocoFlags (s : DialogState) : List (Bool × String) :=
  [(s.chb_metric_AP_coco, "AP"), (s.chb_metric_AP50_coco, "AP50"),
   (s.chb_metric_AP75_coco, "AP75"), (s.chb_metric_APsmall_coco, "APsmall"),
   (s.chb_metric_APmedium_coco, "APmedium"), (s.chb_metric_APlarge_coco, "APlarge"),
   (s.chb_metric_AR_max1, "AR1"), (s.chb_metric_AR_max10, "AR10"),
   (s.chb_metric_AR_max100, "AR100"), (s.chb_metric_AR_small, "ARsmall"),
   (s.chb_metric_AR_medium, "ARmedium"), (s.chb_metric_AR_large, "ARlarge")]

/-- The `if any coco metric is required` guard (run_ui.py lines 714-719). -/
def anyCocoChecked (s : DialogState) : Bool :=
  s.chb_metric_AP_coco || s.chb_metric_AP50_coco || s.chb_metric_AP75_coco ||
  s.chb_metric_APsmall_coco || s.chb_metric_APmedium_coco || s.chb_metric_APlarge_coco ||
  s.chb_metric_AR_max1 || s.chb_metric_AR_max10 || s.chb_metric_AR_max100 ||
  s.chb_metric_AR_small || s.chb_metric_AR_medium || s.chb_metric_AR_large

/-- The `if any pascal metric is required` guard (run_ui.py line 747). -/
def anyPascalChecked (s : DialogState) : Bool :=
  s.chb_metric_AP_pascal || s.chb_metric_mAP_pascal

/-- Whether the deletion chain keeps key `k`: true iff no unchecked
check box guards `k`. -/
def cocoChecked (s : DialogState) (k : String) : Bool :=
  !((cocoFlags s).any (fun p => !p.1 && k == p.2))

/-- The `# Remove not checked metrics` block (run_ui.py lines 721-745):
twelve sequential `if not checkbox: del coco_res[key]` statements. -/
def removeUnchecked (s : DialogState) (d : List (String × ℚ)) :
    Except String (List (String × ℚ)) :=
  delChain (cocoFlags s) d

/-- The Pascal shaping steps of the run slot (run_ui.py lines 753-770):
read `mAP = pascal_res['mAP']` (a potential `KeyError`), delete
`per_class` unless the Pascal AP box is checked, delete `mAP` unless the
Pascal mAP box is checked, then plot iff `per_class` survived, passing the
`mAP` read before the deletions. -/
def pascalShape (s : DialogState) (pres : List (String × PEntry)) :
    Except String (List (String × PEntry) × Option PEntry) :=
  match dictGetE pres "mAP" with
  | .error e => .error e
  | .ok mAPv =>
    match (if s.chb_metric_AP_pascal then .ok pres else dictDel pres "per_class") with
    | .error e => .error e
    | .ok p1 =>
      match (if s.chb_metric_mAP_pascal then .ok p1 else dictDel p1 "mAP") with
      | .error e => .error e
      | .ok p2 =>
        .ok (p2, if dictContains p2 "per_class" then some mAPv else none)

/-- The COCO half of the run slot: call `get_coco_summary` and prune it
when some COCO box is checked, otherwise keep the initial empty dict.
The boolean records whether `get_coco_summary` was invoked. -/
def cocoBranch (env : RunEnv) (s : DialogState) :
    Except String (List (String × ℚ) × Bool) :=
  if anyCocoChecked s then
    match removeUnchecked s (env.get_coco_summary env.load_gt env.load_det.1) with
    | .error e => .error e
    | .ok d => .ok (d, true)
  else .ok ([], false)

/-- The Pascal half of the run slot: call `get_pascalvoc_metrics` with the
spin-box IOU threshold and shape the result when some Pascal box is
checked, otherwise keep the initial empty dict.  The boolean records
whether `get_pascalvoc_metrics` was invoked. -/
def pascalBranch (env : RunEnv) (s : DialogState) :
    Except String (List (String × PEntry) × Bool × Option PEntry) :=
  if anyPascalChecked s then
    match pascalShape s (env.get_pascalvoc_metrics env.load_gt env.load_det.1 s.dsb_IOU_pascal) with
    | .error e => .error e
    | .ok (p, pl) => .ok (p, true, pl)
  else .ok ([], false, none)

/-- The RUN slot `btn_run_clicked` (run_ui.py lines 682-778): the guard
cascade (output directory, detection loading, empty detections, empty
ground truth), the COCO compute-then-delete branch, the Pascal branch with
plotting, and the final results/no-results dispatch.  A `.error k` value
is an uncaught `KeyError` escaping the slot. -/
def btn_run_clicked (env : RunEnv) (s : DialogState) : Except String RunResult :=
  if !outdirValid env s then
    .ok ⟨s, .invalidOutputDir, false, false, none⟩
  else if !env.load_det.2 then
    .ok ⟨s, .detLoadFailed, false, false, none⟩
  else if env.load_det.1.isEmpty then
    .ok ⟨s, .emptyDetections, false, false, none⟩
  else if env.load_gt.isEmpty then
    .ok ⟨s, .emptyGroundTruth, false, false, none⟩
  else
    match cocoBranch env s with
    | .error e => .error e
    | .ok (coco_res, called_coco) =>
      match pascalBranch env s with
      | .error e => .error e
      | .ok (pascal_res, called_pascal, plotted) =>
        .ok ⟨s,
          (if coco_res.length + pascal_res.length = 0 then .noResults
           else .results coco_res pascal_res),
          called_coco, called_pascal, plotted⟩

/-- Modelled from the spec (§6, §4.4): `get_coco_summary` (not under the
embedded sources) returns a flat mapping with exactly the 12 COCO keys. -/
def cocoSpecOk (d : List (String × ℚ)) : Prop :=
  List.Perm (keysOf d) cocoKeys

/-- Modelled from the spec (§6): `get_pascalvoc_metrics` (not under the
embedded sources) returns a mapping with exactly the keys `mAP` and
`per_class`. -/
def pascalSpecOk (p : List (String × PEntry)) : Prop :=
  List.Perm (keysOf p) ["mAP", "per_class"]

instance (d : List (String × ℚ)) : Decidable (cocoSpecOk d) :=
  inferInstanceAs (Decidable (List.Perm _ _))

instance (p : List (String × PEntry)) : Decidable (pascalSpecOk p) :=
  inferInstanceAs (Decidable (List.Perm _ _))

/-! ## Support lemmas about the two branches -/

theorem cocoKeys_nodup : cocoKeys.Nodup := by decide

theorem cocoFlags_map_snd (s : DialogState) : (cocoFlags s).map Prod.snd = cocoKeys := rfl

theorem cocoSpecOk.nodup_coco_keys {d : List (String × ℚ)} (h : cocoSpecOk d) :
    (keysOf d).Nodup :=
  h.nodup_iff.mpr cocoKeys_nodup

theorem cocoSpecOk.mem_keys {d : List (String × ℚ)} (h : cocoSpecOk d) (k : String) :
    k ∈ keysOf d ↔ k ∈ cocoKeys :=
  h.mem_iff

/-- On a conforming summary the deletion chain succeeds and keeps exactly
the entries whose key some checked box guards. -/
theorem removeUnchecked_ok (s : DialogState) (d : List (String × ℚ))
    (h : cocoSpecOk d) :
    removeUnchecked s d = .ok (d.filter (fun e => cocoChecked s e.1)) := by
  have hpres : ∀ p ∈ cocoFlags s, p.1 = false → p.2 ∈ keysOf d := by
    intro p hp _
    apply (h.mem_keys p.2).mpr
    have := List.mem_map_of_mem Prod.snd hp
    rwa [cocoFlags_map_snd] at this
  exact delChain_ok (cocoFlags s) d h.nodup_coco_keys
    (by rw [cocoFlags_map_snd]; exact cocoKeys_nodup) hpres

/-- Each of the twelve `cocoChecked` values is exactly the corresponding
check box. -/
theorem cocoChecked_eval (s : DialogState) :
    cocoChecked s "AP" = s.chb_metric_AP_coco ∧
    cocoChecked s "AP50" = s.chb_metric_AP50_coco ∧
    cocoChecked s "AP75" = s.chb_metric_AP75_coco ∧
    cocoChecked s "APsmall" = s.chb_metric_APsmall_coco ∧
    cocoChecked s "APmedium" = s.chb_metric_APmedium_coco ∧
    cocoChecked s "APlarge" = s.chb_metric_APlarge_coco ∧
    cocoChecked s "AR1" = s.chb_metric_AR_max1 ∧
    cocoChecked s "AR10" = s.chb_metric_AR_max10 ∧
    cocoChecked s "AR100" = s.chb_metric_AR_max100 ∧
    cocoChecked s "ARsmall" = s.chb_metric_AR_small ∧
    cocoChecked s "ARmedium" = s.chb_metric_AR_medium ∧
    cocoChecked s "ARlarge" = s.chb_metric_AR_large := by
  refine ⟨?_, ?_, ?_, ?_, ?_, ?_, ?_, ?_, ?_, ?_, ?_, ?_⟩ <;>
    simp [cocoChecked, cocoFlags]

/-- When the `any coco metric` guard fires, some key survives the chain. -/
theorem anyCoco_exists_checked (s : DialogState) (h : anyCocoChecked s = true) :
    ∃ k, k ∈ cocoKeys ∧ cocoChecked s k = true := by
  obtain ⟨h1, h2, h3, h4, h5, h6, h7, h8, h9, h10, h11, h12⟩ := cocoChecked_eval s
  simp only [anyCocoChecked, Bool.or_eq_true] at h
  rcases h with ((((((((((hc | hc) | hc) | hc) | hc) | hc) | hc) | hc) | hc) | hc) | hc) | hc
  · exact ⟨"AP", by decide, by rw [h1, hc]⟩
  · exact ⟨"AP50", by decide, by rw [h2, hc]⟩
  · exact ⟨"AP75", by decide, by rw [h3, hc]⟩
  · exact ⟨"APsmall", by decide, by rw [h4, hc]⟩
  · exact ⟨"APmedium", by decide, by rw [h5, hc]⟩
  · exact ⟨"APlarge", by decide, by rw [h6, hc]⟩
  · exact ⟨"AR1", by decide, by rw [h7, hc]⟩
  · exact ⟨"AR10", by decide, by rw [h8, hc]⟩
  · exact ⟨"AR100", by decide, by rw [h9, hc]⟩
  · exact ⟨"ARsmall", by decide, by rw [h10, hc]⟩
  · exact ⟨"ARmedium", by decide, by rw [h11, hc]⟩
  · exact ⟨"ARlarge", by decide, by rw [h12, hc]⟩

theorem find?_of_mem_keys (d : List (String × α)) (k : String)
    (h : k ∈ keysOf d) :
    ∃ v, d.find? (fun e => e.1 == k) = some (k, v) ∧ dictGet? d k = some v := by
  induction d with
  | nil => simp at h
  | cons e rest ih =>
    by_cases hek : e.1 = k
    · refine ⟨e.2, ?_, ?_⟩
      · rw [List.find?_cons_of_pos _ (by simp [hek])]
        cases e
        simp only at hek
        simp [hek]
      · rw [dictGet?_cons, if_pos (by simp [hek])]
    · have hk : k ∈ keysOf rest := by
        rcases (by simpa using h : k = e.1 ∨ k ∈ keysOf rest) with hke | hkr
        · exact absurd hke.symm hek
        · exact hkr
      obtain ⟨v, hfind, hget⟩ := ih hk
      refine ⟨v, ?_, ?_⟩
      · rw [List.find?_cons_of_neg _ (by simp [hek]), hfind]
      · rw [dictGet?_cons, if_neg (by simp [hek]), hget]

theorem dictContains_filter_self (d : List (String × α)) (k : String) :
    dictContains (d.filter (fun e => !(e.1 == k))) k = false := by
  rw [← Bool.not_eq_true, dictContains_iff]
  intro hmem
  obtain ⟨v, hv⟩ := (mem_keysOf_iff _ k).mp hmem
  have hpred := (List.mem_filter.mp hv).2
  simp at hpred

theorem ne_nil_of_mem_keys {d : List (String × α)} {k : String}
    (h : k ∈ keysOf d) : d ≠ [] := by
  intro hd
  subst hd
  simp at h

theorem dictContains_eq_false_iff (d : List (String × α)) (k : String) :
    dictContains d k = false ↔ k ∉ keysOf d := by
  rw [← Bool.not_eq_true, not_iff_not]
  exact dictContains_iff d k

theorem not_mem_keys_filter_self (d : List (String × α)) (k : String) :
    k ∉ keysOf (d.filter (fun e => !(e.1 == k))) :=
  (dictContains_eq_false_iff _ k).mp (dictContains_filter_self d k)

theorem keysOf_filter_nodup {d : List (String × α)} (q : String × α → Bool)
    (h : (keysOf d).Nodup) : (keysOf (d.filter q)).Nodup :=
  h.sublist (List.Sublist.map Prod.fst (List.filter_sublist d))

theorem pascalSpecOk.nodup_pascal_keys {p : List (String × PEntry)} (h : pascalSpecOk p) :
    (keysOf p).Nodup :=
  h.nodup_iff.mpr (by decide)

/-- Membership in the keys of a filter implies membership in the keys. -/
theorem mem_keys_of_mem_keys_filter {d : List (String × α)} {q : String × α → Bool}
    {k : String} (h : k ∈ keysOf (d.filter q)) : k ∈ keysOf d := by
  obtain ⟨v, hv⟩ := (mem_keysOf_iff _ k).mp h
  exact (mem_keysOf_iff d k).mpr ⟨v, (List.mem_filter.mp hv).1⟩

/-- On a conforming Pascal result the shaping steps succeed; `per_class`
survives iff the Pascal AP box is checked, `mAP` survives iff the Pascal
mAP box is checked, and whenever `per_class` survives the plot is fed the
`mAP` entry of the *unpruned* result. -/
theorem pascalShape_ok (s : DialogState) (pres : List (String × PEntry))
    (hps : pascalSpecOk pres) :
    ∃ p pl, pascalShape s pres = .ok (p, pl) ∧
      (("per_class" ∈ keysOf p) ↔ s.chb_metric_AP_pascal = true) ∧
      (("mAP" ∈ keysOf p) ↔ s.chb_metric_mAP_pascal = true) ∧
      (s.chb_metric_AP_pascal = true → pl = dictGet? pres "mAP") ∧
      (anyPascalChecked s = true → p ≠ []) := by
  have hnd : (keysOf pres).Nodup := hps.nodup_pascal_keys
  have hmAP : "mAP" ∈ keysOf pres := hps.mem_iff.mpr (by decide)
  have hpc : "per_class" ∈ keysOf pres := hps.mem_iff.mpr (by decide)
  obtain ⟨v, hfind, hget⟩ := find?_of_mem_keys pres "mAP" hmAP
  obtain ⟨vp, hvp⟩ := (mem_keysOf_iff pres "per_class").mp hpc
  obtain ⟨vm, hvm⟩ := (mem_keysOf_iff pres "mAP").mp hmAP
  have hgetE : dictGetE pres "mAP" = .ok v := by
    unfold dictGetE
    rw [hfind]
  have hdelPC : dictDel pres "per_class"
      = .ok (pres.filter (fun e => !(e.1 == "per_class"))) := by
    unfold dictDel
    rw [if_pos ((dictContains_iff pres "per_class").mpr hpc),
      eraseP_eq_filter_keys pres _ hnd]
  have hdelM : dictDel pres "mAP"
      = .ok (pres.filter (fun e => !(e.1 == "mAP"))) := by
    unfold dictDel
    rw [if_pos ((dictContains_iff pres "mAP").mpr hmAP),
      eraseP_eq_filter_keys pres _ hnd]
  cases hAP : s.chb_metric_AP_pascal with
  | true =>
    cases hM : s.chb_metric_mAP_pascal with
    | true =>
      have hcont : dictContains pres "per_class" = true :=
        (dictContains_iff pres "per_class").mpr hpc
      refine ⟨pres, some v, ?_, iff_of_true hpc rfl, iff_of_true hmAP rfl,
        fun _ => hget.symm, fun _ => ne_nil_of_mem_keys hpc⟩
      simp [pascalShape, hgetE, hAP, hM, hcont]
    | false =>
      have hpc2 : "per_class" ∈ keysOf (pres.filter (fun e => !(e.1 == "mAP"))) :=
        (mem_keysOf_iff _ "per_class").mpr
          ⟨vp, List.mem_filter.mpr ⟨hvp, by simp⟩⟩
      have hcont2 : dictContains (pres.filter (fun e => !(e.1 == "mAP"))) "per_class" = true :=
        (dictContains_iff _ "per_class").mpr hpc2
      refine ⟨pres.filter (fun e => !(e.1 == "mAP")), some v, ?_,
        iff_of_true hpc2 rfl,
        iff_of_false (not_mem_keys_filter_self pres "mAP") (by simp),
        fun _ => hget.symm, fun _ => ne_nil_of_mem_keys hpc2⟩
      simp [pascalShape, hgetE, hAP, hM, hdelM, hcont2]
  | false =>
    have hmAP1 : "mAP" ∈ keysOf (pres.filter (fun e => !(e.1 == "per_class"))) :=
      (mem_keysOf_iff _ "mAP").mpr ⟨vm, List.mem_filter.mpr ⟨hvm, by simp⟩⟩
    have hnd1 : (keysOf (pres.filter (fun e => !(e.1 == "per_class")))).Nodup :=
      keysOf_filter_nodup _ hnd
    cases hM : s.chb_metric_mAP_pascal with
    | true =>
      have hcont1 : dictContains (pres.filter (fun e => !(e.1 == "per_class"))) "per_class"
          = false := dictContains_filter_self pres "per_class"
      refine ⟨pres.filter (fun e => !(e.1 == "per_class")), none, ?_,
        iff_of_false (not_mem_keys_filter_self pres "per_class") (by simp),
        iff_of_true hmAP1 rfl,
        fun h => absurd h (by simp), fun _ => ne_nil_of_mem_keys hmAP1⟩
      simp [pascalShape, hgetE, hAP, hM, hdelPC, hcont1]
    | false =>
      have hdelM1 : dictDel (pres.filter (fun e => !(e.1 == "per_class"))) "mAP"
          = .ok ((pres.filter (fun e => !(e.1 == "per_class"))).filter
              (fun e => !(e.1 == "mAP"))) := by
        unfold dictDel
        rw [if_pos ((dictContains_iff _ "mAP").mpr hmAP1),
          eraseP_eq_filter_keys _ _ hnd1]
      have hpcq2 : "per_class" ∉ keysOf ((pres.filter (fun e => !(e.1 == "per_class"))).filter
          (fun e => !(e.1 == "mAP"))) := by
        intro hmem
        exact not_mem_keys_filter_self pres "per_class" (mem_keys_of_mem_keys_filter hmem)
      have hcontq2 : dictContains ((pres.filter (fun e => !(e.1 == "per_class"))).filter
          (fun e => !(e.1 == "mAP"))) "per_class" = false :=
        (dictContains_eq_false_iff _ "per_class").mpr hpcq2
      refine ⟨(pres.filter (fun e => !(e.1 == "per_class"))).filter
          (fun e => !(e.1 == "mAP")), none, ?_,
        iff_of_false hpcq2 (by simp),
        iff_of_false (not_mem_keys_filter_self _ "mAP") (by simp),
        fun h => absurd h (by simp),
        fun h => absurd h (by simp [anyPascalChecked, hAP, hM])⟩
      simp only [pascalShape, hgetE, hAP, hM, Bool.false_eq_true, if_false,
        hdelPC, hdelM1, hcontq2]

theorem cocoBranch_ok_of_checked (env : RunEnv) (s : DialogState)
    (hany : anyCocoChecked s = true)
    (hc : cocoSpecOk (env.get_coco_summary env.load_gt env.load_det.1)) :
    cocoBranch env s
      = .ok ((env.get_coco_summary env.load_gt env.load_det.1).filter
          (fun e => cocoChecked s e.1), true) := by
  unfold cocoBranch
  rw [hany, removeUnchecked_ok s _ hc]
  simp

theorem cocoBranch_not_checked (env : RunEnv) (s : DialogState)
    (hany : anyCocoChecked s = false) :
    cocoBranch env s = .ok ([], false) := by
  simp [cocoBranch, hany]

theorem pascalBranch_ok_of_checked (env : RunEnv) (s : DialogState)
    (hany : anyPascalChecked s = true)
    (hp : pascalSpecOk (env.get_pascalvoc_metrics env.load_gt env.load_det.1 s.dsb_IOU_pascal)) :
    ∃ p pl, pascalBranch env s = .ok (p, true, pl) ∧
      (("per_class" ∈ keysOf p) ↔ s.chb_metric_AP_pascal = true) ∧
      (("mAP" ∈ keysOf p) ↔ s.chb_metric_mAP_pascal = true) ∧
      (s.chb_metric_AP_pascal = true →
        pl = dictGet? (env.get_pascalvoc_metrics env.load_gt env.load_det.1 s.dsb_IOU_pascal) "mAP") ∧
      p ≠ [] := by
  obtain ⟨p, pl, hshape, h1, h2, h3, h4⟩ := pascalShape_ok s _ hp
  exact ⟨p, pl, by simp [pascalBranch, hany, hshape], h1, h2, h3, h4 hany⟩

theorem pascalBranch_not_checked (env : RunEnv) (s : DialogState)
    (hany : anyPascalChecked s = false) :
    pascalBranch env s = .ok ([], false, none) := by
  simp [pascalBranch, hany]

/-- When every guard passes and both branches succeed with a non-empty
combined result, the run slot opens the results dialog on exactly the two
branch dicts. -/
theorem btn_run_main (env : RunEnv) (s : DialogState)
    (ho : outdirValid env s = true)
    (hp : env.load_det.2 = true)
    (hd : env.load_det.1.isEmpty = false)
    (hg : env.load_gt.isEmpty = false)
    (cres : List (String × ℚ)) (ccall : Bool)
    (pres : List (String × PEntry)) (pcall : Bool) (pl : Option PEntry)
    (hcb : cocoBranch env s = .ok (cres, ccall))
    (hpb : pascalBranch env s = .ok (pres, pcall, pl))
    (hne : ¬(cres.length + pres.length = 0)) :
    btn_run_clicked env s = .ok ⟨s, .results cres pres, ccall, pcall, pl⟩ := by
  unfold btn_run_clicked
  rw [ho, hp, hd, hg, hcb, hpb]
  simp [hne]

theorem length_sum_ne_zero_left {α β : Type} {l : List α} {l' : List β}
    (h : l ≠ []) : ¬(l.length + l'.length = 0) := by
  intro h0
  exact h (List.length_eq_zero.mp (Nat.eq_zero_of_add_eq_zero_right h0))

theorem length_sum_ne_zero_right {α β : Type} {l : List α} {l' : List β}
    (h : l' ≠ []) : ¬(l.length + l'.length = 0) := by
  intro h0
  exact h (List.length_eq_zero.mp (Nat.eq_zero_of_add_eq_zero_left h0))

/-- When the run reaches the branches, at least one COCO box is checked
and the evaluators conform to their spec contracts, the run opens the
results dialog whose COCO dict is the summary filtered to the checked
keys. -/
theorem run_results_coco (env : RunEnv) (s : DialogState)
    (ho : outdirValid env s = true)
    (hp : env.load_det.2 = true)
    (hd : env.load_det.1.isEmpty = false)
    (hg : env.load_gt.isEmpty = false)
    (hany : anyCocoChecked s = true)
    (hc : cocoSpecOk (env.get_coco_summary env.load_gt env.load_det.1))
    (hpas : anyPascalChecked s = true →
      pascalSpecOk (env.get_pascalvoc_metrics env.load_gt env.load_det.1 s.dsb_IOU_pascal)) :
    ∃ p pl, btn_run_clicked env s
      = .ok ⟨s, .results ((env.get_coco_summary env.load_gt env.load_det.1).filter
          (fun e => cocoChecked s e.1)) p, true, anyPascalChecked s, pl⟩ := by
  have hcb := cocoBranch_ok_of_checked env s hany hc
  obtain ⟨k, hkmem, hkchk⟩ := anyCoco_exists_checked s hany
  have hkfil : k ∈ keysOf ((env.get_coco_summary env.load_gt env.load_det.1).filter
      (fun e => cocoChecked s e.1)) :=
    (mem_keysOf_filter _ (cocoChecked s) k).mpr ⟨(hc.mem_keys k).mpr hkmem, hkchk⟩
  have hne0 : (env.get_coco_summary env.load_gt env.load_det.1).filter
      (fun e => cocoChecked s e.1) ≠ [] := ne_nil_of_mem_keys hkfil
  cases hpa : anyPascalChecked s with
  | true =>
    obtain ⟨p, pl, hpb, _, _, _, _⟩ := pascalBranch_ok_of_checked env s hpa (hpas hpa)
    exact ⟨p, pl, btn_run_main env s ho hp hd hg _ _ _ _ _ hcb hpb
      (length_sum_ne_zero_left hne0)⟩
  | false =>
    have hpb := pascalBranch_not_checked env s hpa
    exact ⟨[], none, btn_run_main env s ho hp hd hg _ _ _ _ _ hcb hpb
      (length_sum_ne_zero_left hne0)⟩

/-- Shared characterization of `load_annotations_gt`'s effect on the box
store: every cell referenced by the returned list is overwritten in place
with its `GROUND_TRUTH` re-tag, every other cell is untouched. -/
theorem load_annotations_gt_store_get? (conv : GtFormat → List Nat)
    (s : DialogState) (store : List BoundingBox) (r : Nat) :
    ((load_annotations_gt conv s store).2).get? r
      = if r ∈ (load_annotations_gt conv s store).1 then (store.get? r).map retagGT
        else store.get? r :=
  foldl_set_bb_type_get? _ store r

/-- Bool-valued observation of whether a run ended in the results dialog. -/
def isResults : RunOutcome → Bool
  | .results _ _ => true
  | _ => false

/-! ## Claim theorems -/

/-- C1: when at least one COCO metric box is checked (and the evaluators
meet their spec contracts), `btn_run_clicked` invokes `get_coco_summary`
and passes the results dialog a COCO dict holding exactly the checked
metric keys, each still bound to the value the summary computed for it. -/
theorem coco_result_exactly_checked_keys (env : RunEnv) (s : DialogState)
    (ho : outdirValid env s = true)
    (hp : env.load_det.2 = true)
    (hd : env.load_det.1.isEmpty = false)
    (hg : env.load_gt.isEmpty = false)
    (hany : anyCocoChecked s = true)
    (hc : cocoSpecOk (env.get_coco_summary env.load_gt env.load_det.1))
    (hpas : anyPascalChecked s = true →
      pascalSpecOk (env.get_pascalvoc_metrics env.load_gt env.load_det.1 s.dsb_IOU_pascal)) :
    ∃ r c p, btn_run_clicked env s = .ok r ∧ r.outcome = .results c p ∧
      r.called_coco = true ∧
      (∀ k, k ∈ keysOf c ↔ (k ∈ cocoKeys ∧ cocoChecked s k = true)) ∧
      (∀ k, k ∈ keysOf c →
        dictGet? c k = dictGet? (env.get_coco_summary env.load_gt env.load_det.1) k) := by
  obtain ⟨p, pl, hrun⟩ := run_results_coco env s ho hp hd hg hany hc hpas
  refine ⟨_, _, p, hrun, rfl, rfl, ?_, ?_⟩
  · intro k
    rw [mem_keysOf_filter _ (cocoChecked s) k, hc.mem_keys k]
  · intro k hk
    exact dictGet?_filter _ _ hc.nodup_coco_keys k hk

/-- C4: when `get_coco_summary` returns a mapping with exactly the 12 COCO
keys, the twelve-step deletion chain of `btn_run_clicked` never raises a
missing-key error, whatever the checkbox combination (with at least one
COCO box checked). -/
theorem coco_deletion_no_missing_key (s : DialogState) (d : List (String × ℚ))
    (hc : cocoSpecOk d) (_hany : anyCocoChecked s = true) :
    ∃ d', removeUnchecked s d = .ok d' :=
  ⟨_, removeUnchecked_ok s d hc⟩

/-- C5: two runs over the same annotations with different checkbox
selections (each checking at least one COCO metric) agree on the value of
every COCO metric key present in both result dicts. -/
theorem coco_values_selection_independent (env : RunEnv) (s1 s2 : DialogState)
    (ho1 : outdirValid env s1 = true) (ho2 : outdirValid env s2 = true)
    (hp : env.load_det.2 = true)
    (hd : env.load_det.1.isEmpty = false)
    (hg : env.load_gt.isEmpty = false)
    (hany1 : anyCocoChecked s1 = true) (hany2 : anyCocoChecked s2 = true)
    (hc : cocoSpecOk (env.get_coco_summary env.load_gt env.load_det.1))
    (hpas1 : anyPascalChecked s1 = true →
      pascalSpecOk (env.get_pascalvoc_metrics env.load_gt env.load_det.1 s1.dsb_IOU_pascal))
    (hpas2 : anyPascalChecked s2 = true →
      pascalSpecOk (env.get_pascalvoc_metrics env.load_gt env.load_det.1 s2.dsb_IOU_pascal)) :
    ∃ r1 c1 p1 r2 c2 p2,
      btn_run_clicked env s1 = .ok r1 ∧ r1.outcome = .results c1 p1 ∧
      btn_run_clicked env s2 = .ok r2 ∧ r2.outcome = .results c2 p2 ∧
      (∀ k, k ∈ keysOf c1 → k ∈ keysOf c2 → dictGet? c1 k = dictGet? c2 k) := by
  obtain ⟨p1, pl1, hrun1⟩ := run_results_coco env s1 ho1 hp hd hg hany1 hc hpas1
  obtain ⟨p2, pl2, hrun2⟩ := run_results_coco env s2 ho2 hp hd hg hany2 hc hpas2
  refine ⟨_, _, p1, _, _, p2, hrun1, rfl, hrun2, rfl, ?_⟩
  intro k hk1 hk2
  rw [dictGet?_filter _ _ hc.nodup_coco_keys k hk1, dictGet?_filter _ _ hc.nodup_coco_keys k hk2]

/-- C6: with at least one Pascal box checked, the run calls
`get_pascalvoc_metrics` at the spin-box IOU threshold; the shown Pascal
dict keeps `per_class` iff the Pascal AP box is checked and keeps `mAP`
iff the Pascal mAP box is checked, and when `per_class` is kept the
precision-recall plot receives the `mAP` entry read before any deletion. -/
theorem pascal_branch_retention_and_plot (env : RunEnv) (s : DialogState)
    (ho : outdirValid env s = true)
    (hp : env.load_det.2 = true)
    (hd : env.load_det.1.isEmpty = false)
    (hg : env.load_gt.isEmpty = false)
    (hanyp : anyPascalChecked s = true)
    (hps : pascalSpecOk (env.get_pascalvoc_metrics env.load_gt env.load_det.1 s.dsb_IOU_pascal))
    (hcoco : anyCocoChecked s = true →
      cocoSpecOk (env.get_coco_summary env.load_gt env.load_det.1)) :
    ∃ r c p, btn_run_clicked env s = .ok r ∧ r.outcome = .results c p ∧
      r.called_pascal = true ∧
      (("per_class" ∈ keysOf p) ↔ s.chb_metric_AP_pascal = true) ∧
      (("mAP" ∈ keysOf p) ↔ s.chb_metric_mAP_pascal = true) ∧
      (s.chb_metric_AP_pascal = true → r.plotted
        = dictGet? (env.get_pascalvoc_metrics env.load_gt env.load_det.1 s.dsb_IOU_pascal) "mAP") := by
  obtain ⟨p, pl, hpb, h1, h2, h3, hpne⟩ := pascalBranch_ok_of_checked env s hanyp hps
  cases hac : anyCocoChecked s with
  | true =>
    have hcb := cocoBranch_ok_of_checked env s hac (hcoco hac)
    exact ⟨_, _, p, btn_run_main env s ho hp hd hg _ _ _ _ _ hcb hpb
      (length_sum_ne_zero_right hpne), rfl, rfl, h1, h2, h3⟩
  | false =>
    have hcb := cocoBranch_not_checked env s hac
    exact ⟨_, _, p, btn_run_main env s ho hp hd hg _ _ _ _ _ hcb hpb
      (length_sum_ne_zero_right hpne), rfl, rfl, h1, h2, h3⟩

/-- C8: whenever the output directory is unset/invalid, detection loading
fails validation, or either annotation list comes back empty, the run slot
returns with one of its early popups, without invoking either evaluator,
without plotting, and with the dialog state (its cached path attributes
included) unchanged. -/
theorem invalid_input_rejected_at_boundary (env : RunEnv) (s : DialogState)
    (h : outdirValid env s = false ∨ env.load_det.2 = false ∨
      env.load_det.1 = [] ∨ env.load_gt = []) :
    ∃ r, btn_run_clicked env s = .ok r ∧ r.state = s ∧
      r.called_coco = false ∧ r.called_pascal = false ∧ r.plotted = none ∧
      (r.outcome = .invalidOutputDir ∨ r.outcome = .detLoadFailed ∨
       r.outcome = .emptyDetections ∨ r.outcome = .emptyGroundTruth) := by
  by_cases ho : outdirValid env s = false
  · refine ⟨⟨s, .invalidOutputDir, false, false, none⟩, ?_, rfl, rfl, rfl, rfl, Or.inl rfl⟩
    unfold btn_run_clicked
    rw [ho]
    simp
  · have ho' : outdirValid env s = true := by simpa using ho
    by_cases hpd : env.load_det.2 = false
    · refine ⟨⟨s, .detLoadFailed, false, false, none⟩, ?_, rfl, rfl, rfl, rfl,
        Or.inr (Or.inl rfl)⟩
      unfold btn_run_clicked
      rw [ho', hpd]
      simp
    · have hpd' : env.load_det.2 = true := by simpa using hpd
      by_cases hde : env.load_det.1 = []
      · refine ⟨⟨s, .emptyDetections, false, false, none⟩, ?_, rfl, rfl, rfl, rfl,
          Or.inr (Or.inr (Or.inl rfl))⟩
        unfold btn_run_clicked
        rw [ho', hpd']
        simp [hde]
      · have hge : env.load_gt = [] := by
          rcases h with h | h | h | h
          · exact absurd h (by simp [ho'])
          · exact absurd h (by simp [hpd'])
          · exact absurd h hde
          · exact h
        refine ⟨⟨s, .emptyGroundTruth, false, false, none⟩, ?_, rfl, rfl, rfl, rfl,
          Or.inr (Or.inr (Or.inr rfl))⟩
        unfold btn_run_clicked
        rw [ho', hpd']
        simp [hge, hde, List.isEmpty_iff]

/-- C3 (amended): a run with an empty detection list is rejected at the UI
boundary: `btn_run_clicked` stops at one of its early popups (the
`Invalid detections` one when the earlier guards pass) and never
invokes either evaluator; the "zero detections yields AP = 0" absorption
of the spec applies to per-class emptiness inside the evaluators, not to
an entirely empty detection load. -/
theorem empty_detections_early_return (env : RunEnv) (s : DialogState)
    (hde : env.load_det.1 = []) :
    ∃ r, btn_run_clicked env s = .ok r ∧ r.called_coco = false ∧
      r.called_pascal = false ∧
      (r.outcome = .invalidOutputDir ∨ r.outcome = .detLoadFailed ∨
       r.outcome = .emptyDetections) := by
  by_cases ho : outdirValid env s = true
  · by_cases hpd : env.load_det.2 = true
    · refine ⟨⟨s, .emptyDetections, false, false, none⟩, ?_, rfl, rfl,
        Or.inr (Or.inr rfl)⟩
      unfold btn_run_clicked
      rw [ho, hpd]
      simp [hde]
    · have hpd' : env.load_det.2 = false := by simpa using hpd
      refine ⟨⟨s, .detLoadFailed, false, false, none⟩, ?_, rfl, rfl,
        Or.inr (Or.inl rfl)⟩
      unfold btn_run_clicked
      rw [ho, hpd']
      simp
  · have ho' : outdirValid env s = false := by simpa using ho
    refine ⟨⟨s, .invalidOutputDir, false, false, none⟩, ?_, rfl, rfl, Or.inl rfl⟩
    unfold btn_run_clicked
    rw [ho']
    simp

/-- C2 (amended): the batch re-tagging in `load_annotations_gt` mutates
the `BoundingBox` objects it received in place (`bb.set_bb_type`) instead
of constructing new values: the returned list references the same store
cells, and every referenced cell now holds its `GROUND_TRUTH`-re-tagged
copy while unreferenced cells are untouched. -/
theorem load_annotations_gt_retag_in_place (conv : GtFormat → List Nat)
    (s : DialogState) (store : List BoundingBox) :
    ∀ r : Nat, ((load_annotations_gt conv s store).2).get? r
      = if r ∈ (load_annotations_gt conv s store).1 then (store.get? r).map retagGT
        else store.get? r :=
  fun r => load_annotations_gt_store_get? conv s store r

/-- C7: the default-configuration constant for the Pascal IOU threshold is
0.5, and Clear All restores the spin box to exactly that constant. -/
theorem default_iou_half_and_restored (s : DialogState) :
    DEFAULT_IOU_THRESHOLD = 1 / 2 ∧
    (btn_clear_all_clicked s).dsb_IOU_pascal = DEFAULT_IOU_THRESHOLD :=
  ⟨by norm_num [DEFAULT_IOU_THRESHOLD], rfl⟩

/-- C9: `btn_clear_all_clicked` is idempotent: a second click leaves every
text box, radio button, check box, the IOU spin box and the six cached
path attributes exactly as the first click did. -/
theorem clear_all_idempotent (s : DialogState) :
    btn_clear_all_clicked (btn_clear_all_clicked s) = btn_clear_all_clicked s := rfl

/-- C10: every box referenced by the list `load_annotations_gt` returns is
tagged `GROUND_TRUTH` afterwards, whichever format button is selected and
however the converter tagged it; with no format button checked the
returned list is empty. -/
theorem load_gt_forces_ground_truth (conv : GtFormat → List Nat)
    (s : DialogState) (store : List BoundingBox) :
    (∀ r, r ∈ (load_annotations_gt conv s store).1 → r < store.length →
      (((load_annotations_gt conv s store).2).get? r).map BoundingBox.bb_type
        = some BBType.GROUND_TRUTH) ∧
    (noGtFormatChecked s = true → (load_annotations_gt conv s store).1 = []) := by
  constructor
  · intro r hr hlen
    rw [load_annotations_gt_store_get? conv s store r, if_pos hr]
    cases hsg : store.get? r with
    | none =>
      exfalso
      rw [List.get?_eq_none] at hsg
      exact absurd hlen (by omega)
    | some bb => simp [retagGT]
  · intro hnone
    have h : (s.rad_gt_format_coco_json || s.rad_gt_format_cvat_xml ||
        s.rad_gt_format_openimages_csv || s.rad_gt_format_labelme_xml ||
        s.rad_gt_format_pascalvoc_xml || s.rad_gt_format_imagenet_xml ||
        s.rad_gt_format_abs_values_text || s.rad_gt_format_yolo_text) = false := by
      rw [noGtFormatChecked, Bool.not_eq_true'] at hnone
      exact hnone
    simp only [Bool.or_eq_false_iff] at h
    obtain ⟨⟨⟨⟨⟨⟨⟨h1, h2⟩, h3⟩, h4⟩, h5⟩, h6⟩, h7⟩, h8⟩ := h
    simp [load_annotations_gt, selectedGtFormat, h1, h2, h3, h4, h5, h6, h7, h8]

/-! ## Concrete instances for witnesses and counterexamples -/

/-- A concrete detection box, tagged `DETECTED` by its converter. -/
def bbDet : BoundingBox :=
  { image_name := "img1", class_id := "person", bb_type := .DETECTED,
    confidence := some (9 / 10), x := 0, y := 0, x2 := 10, y2 := 10 }

/-- A concrete ground-truth box. -/
def bbGt : BoundingBox :=
  { image_name := "img1", class_id := "person", bb_type := .GROUND_TRUTH,
    confidence := none, x := 0, y := 0, x2 := 10, y2 := 10 }

/-- A concrete 12-key COCO summary. -/
def sampleSummary : List (String × ℚ) :=
  [("AP", 1 / 2), ("AP50", 3 / 5), ("AP75", 2 / 5), ("APsmall", 1 / 4),
   ("APmedium", 1 / 2), ("APlarge", 3 / 4), ("AR1", 1 / 3), ("AR10", 1 / 2),
   ("AR100", 1 / 2), ("ARsmall", 1 / 4), ("ARmedium", 1 / 2), ("ARlarge", 3 / 4)]

/-- A concrete Pascal result with its two keys. -/
def samplePascal : List (String × PEntry) :=
  [("mAP", .vMAP (7 / 10)), ("per_class", .vPerClass [("person", 7 / 10)])]

/-- The just-cleared dialog with a valid output directory selected. -/
def stateW : DialogState :=
  { btn_clear_all_clicked default with dir_save_results := some "results" }

/-- Like `stateW` but with a different metric selection (two COCO boxes
and both Pascal boxes unchecked). -/
def stateW2 : DialogState :=
  { stateW with
    chb_metric_AP50_coco := false, chb_metric_AR_max10 := false,
    chb_metric_AP_pascal := false, chb_metric_mAP_pascal := false }

/-- Like `stateW` but with no ground-truth format button checked. -/
def stateNoGt : DialogState :=
  { stateW with rad_gt_format_coco_json := false }

/-- A fully healthy environment. -/
def envW : RunEnv :=
  { isdir := fun _ => true
    load_det := ([bbDet], true)
    load_gt := [bbGt]
    get_coco_summary := fun _ _ => sampleSummary
    get_pascalvoc_metrics := fun _ _ _ => samplePascal }

/-- Like `envW` but the chosen output directory does not exist. -/
def envBad : RunEnv := { envW with isdir := fun _ => false }

/-- Like `envW` but the detection loader found no detection at all. -/
def envNoDet : RunEnv := { envW with load_det := ([], true) }

/-- A converter output referencing the single cell of a one-box store. -/
def convGt : GtFormat → List Nat := fun _ => [0]

/-- A one-box store holding a `DETECTED`-tagged box. -/
def storeC2 : List BoundingBox := [bbDet]

/-! ## Witnesses and counterexamples -/

/-- C1 witness at a concrete environment and an all-checked dialog. -/
theorem coco_result_exactly_checked_keys_witness :
    outdirValid envW stateW = true ∧ envW.load_det.2 = true ∧
    envW.load_det.1.isEmpty = false ∧ envW.load_gt.isEmpty = false ∧
    anyCocoChecked stateW = true ∧
    cocoSpecOk (envW.get_coco_summary envW.load_gt envW.load_det.1) ∧
    (anyPascalChecked stateW = true →
      pascalSpecOk (envW.get_pascalvoc_metrics envW.load_gt envW.load_det.1 stateW.dsb_IOU_pascal)) ∧
    (∃ r c p, btn_run_clicked envW stateW = .ok r ∧ r.outcome = .results c p ∧
      r.called_coco = true ∧
      (∀ k, k ∈ keysOf c ↔ (k ∈ cocoKeys ∧ cocoChecked stateW k = true)) ∧
      (∀ k, k ∈ keysOf c →
        dictGet? c k = dictGet? (envW.get_coco_summary envW.load_gt envW.load_det.1) k)) :=
  ⟨rfl, rfl, rfl, rfl, rfl, by decide, fun _ => by decide,
    coco_result_exactly_checked_keys envW stateW rfl rfl rfl rfl rfl (by decide)
      (fun _ => by decide)⟩

/-- C4 witness at a concrete summary and the all-checked dialog. -/
theorem coco_deletion_no_missing_key_witness :
    cocoSpecOk sampleSummary ∧ anyCocoChecked stateW = true ∧
    (∃ d', removeUnchecked stateW sampleSummary = .ok d') :=
  ⟨by decide, rfl, coco_deletion_no_missing_key stateW sampleSummary (by decide) rfl⟩

/-- C5 witness: the all-checked run against the partially-checked run. -/
theorem coco_values_selection_independent_witness :
    outdirValid envW stateW = true ∧ outdirValid envW stateW2 = true ∧
    anyCocoChecked stateW = true ∧ anyCocoChecked stateW2 = true ∧
    cocoSpecOk (envW.get_coco_summary envW.load_gt envW.load_det.1) ∧
    (∃ r1 c1 p1 r2 c2 p2,
      btn_run_clicked envW stateW = .ok r1 ∧ r1.outcome = .results c1 p1 ∧
      btn_run_clicked envW stateW2 = .ok r2 ∧ r2.outcome = .results c2 p2 ∧
      (∀ k, k ∈ keysOf c1 → k ∈ keysOf c2 → dictGet? c1 k = dictGet? c2 k)) :=
  ⟨rfl, rfl, rfl, rfl, by decide,
    coco_values_selection_independent envW stateW stateW2 rfl rfl rfl rfl rfl rfl rfl
      (by decide) (fun _ => by decide) (fun h => absurd h (by decide))⟩

/-- C6 witness at the all-checked dialog. -/
theorem pascal_branch_retention_and_plot_witness :
    anyPascalChecked stateW = true ∧
    pascalSpecOk (envW.get_pascalvoc_metrics envW.load_gt envW.load_det.1 stateW.dsb_IOU_pascal) ∧
    (∃ r c p, btn_run_clicked envW stateW = .ok r ∧ r.outcome = .results c p ∧
      r.called_pascal = true ∧
      (("per_class" ∈ keysOf p) ↔ stateW.chb_metric_AP_pascal = true) ∧
      (("mAP" ∈ keysOf p) ↔ stateW.chb_metric_mAP_pascal = true) ∧
      (stateW.chb_metric_AP_pascal = true → r.plotted
        = dictGet? (envW.get_pascalvoc_metrics envW.load_gt envW.load_det.1 stateW.dsb_IOU_pascal) "mAP")) :=
  ⟨rfl, by decide,
    pascal_branch_retention_and_plot envW stateW rfl rfl rfl rfl rfl (by decide)
      (fun _ => by decide)⟩

/-- C8 witness: a run whose output directory does not exist. -/
theorem invalid_input_rejected_at_boundary_witness :
    (outdirValid envBad stateW = false ∨ envBad.load_det.2 = false ∨
      envBad.load_det.1 = [] ∨ envBad.load_gt = []) ∧
    (∃ r, btn_run_clicked envBad stateW = .ok r ∧ r.state = stateW ∧
      r.called_coco = false ∧ r.called_pascal = false ∧ r.plotted = none ∧
      (r.outcome = .invalidOutputDir ∨ r.outcome = .detLoadFailed ∨
       r.outcome = .emptyDetections ∨ r.outcome = .emptyGroundTruth)) :=
  ⟨Or.inl rfl, invalid_input_rejected_at_boundary envBad stateW (Or.inl rfl)⟩

/-- C3 counterexample: with an empty detection list (and everything else
healthy) the run stops at the `Invalid detections` popup without invoking
any evaluator — it does not "produce and return metric results". -/
theorem empty_detections_aborts_cex :
    btn_run_clicked envNoDet stateW
      = .ok ⟨stateW, .emptyDetections, false, false, none⟩ ∧
    isResults RunOutcome.emptyDetections = false :=
  ⟨rfl, rfl⟩

/-- C3 (amended) witness. -/
theorem empty_detections_early_return_witness :
    envNoDet.load_det.1 = [] ∧
    (∃ r, btn_run_clicked envNoDet stateW = .ok r ∧ r.called_coco = false ∧
      r.called_pascal = false ∧
      (r.outcome = .invalidOutputDir ∨ r.outcome = .detLoadFailed ∨
       r.outcome = .emptyDetections)) :=
  ⟨rfl, empty_detections_early_return envNoDet stateW rfl⟩

/-- C2 counterexample: the box the converter returned is mutated in place —
after `load_annotations_gt` the store cell it occupies no longer holds the
value it held before the call. -/
theorem load_annotations_gt_mutates_cex :
    ((load_annotations_gt convGt stateW storeC2).2).get? 0 ≠ storeC2.get? 0 := by
  decide

/-- C10 witness: the concrete `DETECTED` box is re-tagged, and with no
format button checked the returned list is empty. -/
theorem load_gt_forces_ground_truth_witness :
    ((((load_annotations_gt convGt stateW storeC2).2).get? 0).map BoundingBox.bb_type
      = some BBType.GROUND_TRUTH) ∧
    (load_annotations_gt convGt stateNoGt storeC2).1 = [] :=
  ⟨(load_gt_forces_ground_truth convGt stateW storeC2).1 0 (by decide) (by decide),
   (load_gt_forces_ground_truth convGt stateNoGt storeC2).2 (by decide)⟩
